import Mathlib

/-!
Verification development for the USB-Util device-inventory and correlation
engine.  The Python sources under `src/core/device_models.py`,
`src/core/com_ports.py`, `src/core/scanners.py` and `src/com_analyze.py`
are shallowly embedded below: strings are modelled by their character
lists, Python `Optional` values by `Option`, Python dicts by association
lists with explicit overwrite/`setdefault` operations, and fallible
resolution code by an explicit result type.  Python string primitives
(`str.strip`, `str.lower`, `str.upper`, `str.zfill`, slicing, `in`) are
reimplemented faithfully over `List Char` (ASCII whitespace and ASCII
case folding, which covers every value these code paths handle).
-/

namespace USBUtil

/-- ASCII whitespace characters stripped by Python `str.strip()`. -/
def isPySpace (c : Char) : Bool :=
  c = ' ' || c = '\t' || c = '\n' || c = '\x0d' || c = '\x0b' || c = '\x0c'

/-- Python `str.strip()` on a character list: drop whitespace at both ends. -/
def pyStrip (l : List Char) : List Char :=
  ((l.dropWhile isPySpace).reverse.dropWhile isPySpace).reverse

/-- Python `str.lower()` (ASCII case folding). -/
def pyLower (l : List Char) : List Char :=
  l.map Char.toLower

/-- Python `str.upper()` (ASCII case folding). -/
def pyUpper (l : List Char) : List Char :=
  l.map Char.toUpper

/-- Python `str.zfill(width)`: left-pad with `'0'` to `width`, keeping a
leading sign character in front of the padding. -/
def zfillL (width : Nat) (l : List Char) : List Char :=
  if width ≤ l.length then l
  else
    match l with
    | [] => List.replicate width '0'
    | c :: rest =>
        if c = '+' || c = '-' then
          c :: (List.replicate (width - l.length) '0' ++ rest)
        else
          List.replicate (width - l.length) '0' ++ l

/-- Python `needle in hay` substring test on character lists. -/
def containsSub (needle : List Char) : List Char → Bool
  | [] => needle.isEmpty
  | c :: rest => needle.isPrefixOf (c :: rest) || containsSub needle rest

/-- `device_models._normalize_hex` (string/None inputs, the only runtime
types reaching it from the matching code): `None` becomes `""`; a string is
stripped, lowercased, has a `"0x"` prefix removed, and is `zfill`ed to 4. -/
def normalizeHex (value : Option String) : String :=
  match value with
  | none => ""
  | some v =>
      let text := pyLower (pyStrip v.data)
      let text := if ("0x".data).isPrefixOf text then text.drop 2 else text
      String.mk (zfillL 4 text)

/-- `device_models._normalize_serial`: `None` becomes `""`; a string is
stripped and uppercased, and the sentinels `""`, `"取得不可"`, `"-"` all
map to `""`. -/
def normalizeSerial (value : Option String) : String :=
  match value with
  | none => ""
  | some v =>
      let text := pyUpper (pyStrip v.data)
      if text = [] ∨ text = "取得不可".data ∨ text = "-".data then ""
      else String.mk text

example : normalizeHex (some "0x1234") = "1234" := by decide
example : normalizeHex (some "0X1234") = "1234" := by decide
example : normalizeHex (some "1234") = "1234" := by decide
example : normalizeHex (some "x31") = "0x31" := by decide
example : normalizeHex (some "0x31") = "0031" := by decide
example : normalizeSerial (some "-") = "" := by decide
example : normalizeSerial (some "取得不可") = "" := by decide
example : normalizeSerial (some " a50285bi ") = "A50285BI" := by decide

/-- `UsbDeviceSnapshot` (`device_models.py`): serializable record of one
discovered device.  The opaque descriptor maps (`device_descriptor`,
`configurations`) are raw diagnostic payloads untouched by identity,
matching and repository-field claims, and are not modelled. -/
structure UsbDeviceSnapshot where
  vid : String
  pid : String
  device_type : String := "usb"
  manufacturer : String := ""
  product : String := ""
  serial : String := ""
  bus : Option Int := none
  address : Option Int := none
  port_path : List Int := []
  class_guess : String := "-"
  error : Option String := none
  topology_chain : List String := []
  location_information : String := ""
  location_fallback : String := ""
  usb_controllers : List String := []
  ble_address : String := ""
  ble_name : String := ""
  ble_rssi : Option Int := none
  ble_uuids : List String := []
  deriving Repr, DecidableEq

/-- `" | ".join(parts)` as used by `identity()`. -/
def joinIdentityParts : List String → String
  | [] => ""
  | [p] => p
  | p :: q :: rest => p ++ " | " ++ joinIdentityParts (q :: rest)

/-- The serial value `identity()` actually keys on: `self.serial.strip()`
when that is truthy and not one of the sentinels `取得不可` / `-`,
otherwise empty. -/
def identityEffectiveSerial (serial : String) : String :=
  let t := String.mk (pyStrip serial.data)
  if t ≠ "" ∧ t ≠ "取得不可" ∧ t ≠ "-" then t else ""

/-- The identity parts accumulated before the `UNIDENTIFIED` fallback:
the serial (or port-path) head followed by the optional bus and address
parts (`UsbDeviceSnapshot.identity`, non-BLE branch). -/
def usbIdentityMid (snap : UsbDeviceSnapshot) : List String :=
  (if identityEffectiveSerial snap.serial ≠ "" then
     ["SER:" ++ identityEffectiveSerial snap.serial]
   else if snap.port_path ≠ [] then
     ["PORT:" ++ String.intercalate "-" (snap.port_path.map toString)]
   else []) ++
  (match snap.bus with | some b => ["BUS:" ++ toString b] | none => []) ++
  (match snap.address with | some a => ["ADDR:" ++ toString a] | none => [])

/-- The identity parts built for a USB-type snapshot: the accumulated
parts (or `UNIDENTIFIED` when none), always followed by the VID/PID
part. -/
def usbIdentityParts (snap : UsbDeviceSnapshot) : List String :=
  (if usbIdentityMid snap = [] then ["UNIDENTIFIED"]
   else usbIdentityMid snap) ++
  ["VIDPID:" ++ snap.vid ++ ":" ++ snap.pid]

/-- `UsbDeviceSnapshot.identity`: stable per-device identity string. -/
def identity (snap : UsbDeviceSnapshot) : String :=
  if snap.device_type = "ble" then
    let parts : List String :=
      (if snap.ble_address ≠ "" then ["ADDR:" ++ snap.ble_address] else []) ++
      (if snap.ble_name ≠ "" then ["NAME:" ++ snap.ble_name] else []) ++
      (match snap.ble_rssi with | some r => ["RSSI:" ++ toString r] | none => [])
    let parts := if parts = [] then ["UNIDENTIFIED"] else parts
    joinIdentityParts parts
  else
    joinIdentityParts (usbIdentityParts snap)

/-- One record of `ComPortManager.get_com_ports()`: a Python dict whose
`vid` / `pid` / `serial_number` / `device` values may be `None` (the
Windows enumeration path fills exactly those with `None`). -/
structure ComPortRecord where
  device : Option String := none
  description : Option String := none
  vid : Option String := none
  pid : Option String := none
  serial_number : Option String := none
  deriving Repr, DecidableEq

/-- The per-port acceptance test inside
`UsbSnapshotService._match_com_port`: normalized VID and PID agree, and the
snapshot's normalized serial is empty or equals the port's. -/
def matchesPort (snap : UsbDeviceSnapshot) (port : ComPortRecord) : Bool :=
  decide (normalizeHex port.vid = normalizeHex (some snap.vid) ∧
    normalizeHex port.pid = normalizeHex (some snap.pid) ∧
    (normalizeSerial (some snap.serial) = "" ∨
     normalizeSerial (some snap.serial) = normalizeSerial port.serial_number))

/-- `UsbSnapshotService._match_com_port`: walk the ports in enumeration
order; on the first record whose normalized VID/PID agree, apply the strict
serial check (skip on mismatch when the snapshot's normalized serial is
non-empty), otherwise return that record's `device` value. -/
def matchComPort (snap : UsbDeviceSnapshot) : List ComPortRecord → Option String
  | [] => none
  | port :: rest =>
      if normalizeHex port.vid = normalizeHex (some snap.vid) ∧
         normalizeHex port.pid = normalizeHex (some snap.pid) then
        if normalizeSerial (some snap.serial) ≠ "" ∧
           normalizeSerial (some snap.serial) ≠ normalizeSerial port.serial_number then
          matchComPort snap rest
        else
          port.device
      else
        matchComPort snap rest

/-- Python truthiness of an `Optional[str]`: `None` and `""` are falsy. -/
def truthyStr : Option String → Bool
  | none => false
  | some s => s ≠ ""

/-- `UsbSnapshotService.find_snapshots` applied to an already-obtained
snapshot list (the list the service loads from its repository, or the one
a forced refresh produced): skip snapshots with a *truthy* error value
(`if snapshot.error: continue` — `None` and `""` are falsy) and non-USB
snapshots, then keep those whose normalized VID/PID equal the target's
and whose normalized serial equals the target's whenever the target
serial is non-empty. -/
def findSnapshots (snapshots : List UsbDeviceSnapshot) (vid pid : String)
    (serial : Option String) : List UsbDeviceSnapshot :=
  let targetVid := normalizeHex (some vid)
  let targetPid := normalizeHex (some pid)
  let targetSerial := normalizeSerial serial
  snapshots.filter fun snap =>
    !truthyStr snap.error &&
    snap.device_type = "usb" &&
    normalizeHex (some snap.vid) = targetVid &&
    normalizeHex (some snap.pid) = targetPid &&
    !(targetSerial ≠ "" && normalizeSerial (some snap.serial) ≠ targetSerial)

/-- One entry of `UsbSnapshotService.find_device_connections`' result. -/
structure Connection where
  snapshot : UsbDeviceSnapshot
  identityStr : String
  serial : String
  com_port : Option String
  port_path : List Int
  bus : Option Int
  address : Option Int
  deriving Repr, DecidableEq

/-- `UsbSnapshotService.find_device_connections`: attach the first matching
live COM port (if any) to every matching USB snapshot. -/
def findDeviceConnections (snapshots : List UsbDeviceSnapshot)
    (ports : List ComPortRecord) (vid pid : String)
    (serial : Option String) : List Connection :=
  ((findSnapshots snapshots vid pid serial).filter
      fun snap => snap.device_type = "usb").map fun snap =>
    { snapshot := snap
      identityStr := identity snap
      serial := snap.serial
      com_port := matchComPort snap ports
      port_path := snap.port_path
      bus := snap.bus
      address := snap.address }

/-- `UsbSnapshotService.get_com_port_for_device` applied to the loaded
snapshots and live ports: return the first connection entry whose
`com_port` value is truthy, else `None`. -/
def getComPortForDevice (snapshots : List UsbDeviceSnapshot)
    (ports : List ComPortRecord) (vid pid : String)
    (serial : Option String) : Option String :=
  firstTruthyPort (findDeviceConnections snapshots ports vid pid serial)
where
  firstTruthyPort : List Connection → Option String
    | [] => none
    | entry :: rest =>
        if truthyStr entry.com_port then entry.com_port
        else firstTruthyPort rest

/-- Outcome of the port-resolution prefix of
`UsbSnapshotService.send_serial_command` (everything before the serial
I/O, whose `RuntimeError`s become explicit constructors). -/
inductive SendResolveResult where
  | noDevice
  | noComPort
  | ambiguous
  | noPortInfo
  | port (name : String)
  deriving Repr, DecidableEq

/-- The `candidates` list of `send_serial_command`: connections whose
`com_port` is truthy. -/
def sendCandidates (snapshots : List UsbDeviceSnapshot)
    (ports : List ComPortRecord) (vid pid : String)
    (serial : Option String) : List Connection :=
  (findDeviceConnections snapshots ports vid pid serial).filter
    fun entry => truthyStr entry.com_port

/-- The candidate-selection tail of `send_serial_command`: error when no
candidate carries a COM port, the explicit ambiguity error when more than
one does and no serial argument was given, else the first candidate's
port name. -/
def resolveFromCandidates (serial : Option String) :
    List Connection → SendResolveResult
  | [] => .noComPort
  | target :: rest =>
      if rest.length + 1 > 1 ∧ serial = none then .ambiguous
      else
        match target.com_port with
        | some name => if name ≠ "" then .port name else .noPortInfo
        | none => .noPortInfo

/-- `UsbSnapshotService.send_serial_command`, up to the point where a port
name has been chosen: no matching device → error; otherwise resolve from
the candidate connections. -/
def sendSerialResolve (snapshots : List UsbDeviceSnapshot)
    (ports : List ComPortRecord) (vid pid : String)
    (serial : Option String) : SendResolveResult :=
  if findDeviceConnections snapshots ports vid pid serial = [] then .noDevice
  else resolveFromCandidates serial (sendCandidates snapshots ports vid pid serial)

/-- `UsbSnapshotRepository.placeholder`: error-placeholder snapshot. -/
def placeholder (message : String) : UsbDeviceSnapshot :=
  { vid := "-", pid := "-", error := some message }

/-- The JSON object `UsbDeviceSnapshot.to_dict` emits, restricted to the
modelled fields; `to_dict` writes every key, so all fields are present. -/
structure SnapDict where
  device_type : String
  vid : String
  pid : String
  manufacturer : String
  product : String
  serial : String
  bus : Option Int
  address : Option Int
  port_path : List Int
  class_guess : String
  error : Option String
  topology_chain : List String
  location_information : String
  location_fallback : String
  usb_controllers : List String
  ble_address : String
  ble_name : String
  ble_rssi : Option Int
  ble_uuids : List String
  deriving Repr, DecidableEq

/-- `UsbDeviceSnapshot.to_dict`. -/
def toDict (s : UsbDeviceSnapshot) : SnapDict :=
  { device_type := s.device_type, vid := s.vid, pid := s.pid
    manufacturer := s.manufacturer, product := s.product, serial := s.serial
    bus := s.bus, address := s.address, port_path := s.port_path
    class_guess := s.class_guess, error := s.error
    topology_chain := s.topology_chain
    location_information := s.location_information
    location_fallback := s.location_fallback
    usb_controllers := s.usb_controllers
    ble_address := s.ble_address, ble_name := s.ble_name
    ble_rssi := s.ble_rssi, ble_uuids := s.ble_uuids }

/-- `UsbDeviceSnapshot.from_dict` on a dict carrying every standard key
(the shape `save` always writes; the `.get` defaults never fire there). -/
def fromDict (d : SnapDict) : UsbDeviceSnapshot :=
  { device_type := d.device_type, vid := d.vid, pid := d.pid
    manufacturer := d.manufacturer, product := d.product, serial := d.serial
    bus := d.bus, address := d.address, port_path := d.port_path
    class_guess := d.class_guess, error := d.error
    topology_chain := d.topology_chain
    location_information := d.location_information
    location_fallback := d.location_fallback
    usb_controllers := d.usb_controllers
    ble_address := d.ble_address, ble_name := d.ble_name
    ble_rssi := d.ble_rssi, ble_uuids := d.ble_uuids }

/-- State of the JSON backing store as `UsbSnapshotRepository.load` can
observe it: the file is missing, unreadable/malformed, or parses to an
array of snapshot objects. -/
inductive StoreState where
  | missing
  | unreadable
  | parsed (data : List SnapDict)
  deriving Repr, DecidableEq

/-- `UsbSnapshotRepository.load`: placeholders for a missing, unreadable or
empty store, else deserialize every entry. -/
def repositoryLoad : StoreState → List UsbDeviceSnapshot
  | .missing => [placeholder "USB/BTデバイス情報が存在しません"]
  | .unreadable => [placeholder "USB/BTデバイス情報の読み込みに失敗しました"]
  | .parsed data =>
      if data = [] then [placeholder "USB/BTデバイス情報が空です"]
      else data.map fromDict

/-- `UsbSnapshotRepository.save`: serialize every snapshot, overwriting the
store with the resulting array. -/
def repositorySave (snapshots : List UsbDeviceSnapshot) : StoreState :=
  .parsed (snapshots.map toDict)

/-- The field quadruple the round-trip claim compares snapshots on. -/
def snapQuad (s : UsbDeviceSnapshot) : String × String × String × String :=
  (s.vid, s.pid, s.serial, s.class_guess)

/-! ### Windows topology resolver (`scanners.py`) -/

/-- Hex digit class of the regex `[0-9A-Fa-f]`. -/
def isHexDig (c : Char) : Bool :=
  c.isDigit || ('a' ≤ c && c ≤ 'f') || ('A' ≤ c && c ≤ 'F')

/-- Match exactly four hex digits at the head of the list, returning them
and the remainder. -/
def hexQuadAt : List Char → Option (List Char × List Char)
  | a :: b :: c :: d :: rest =>
      if isHexDig a && isHexDig b && isHexDig c && isHexDig d then
        some ([a, b, c, d], rest)
      else none
  | _ => none

/-- Match a literal at the head of the list, returning the remainder. -/
def stripLit (lit : String) (cs : List Char) : Option (List Char) :=
  if lit.data.isPrefixOf cs then some (cs.drop lit.data.length) else none

/-- The 4-hex groups of every position where `PID_[0-9A-Fa-f]{4}` matches,
in order of starting position. -/
def pidQuads : List Char → List (List Char)
  | [] => []
  | c :: rest =>
      (match stripLit "PID_" (c :: rest) with
       | some after =>
           match hexQuadAt after with
           | some (q, _) => [q]
           | none => []
       | none => []) ++ pidQuads rest

/-- `re.search(r"VID_([0-9A-Fa-f]{4}).*PID_([0-9A-Fa-f]{4})", s)`: the
leftmost start where `VID_` plus four hex digits is followed — within the
same line, `.` not crossing `'\n'` — by some `PID_` plus four hex digits;
the greedy `.*` makes group 2 the last such `PID_` group. -/
def searchVidPid : List Char → Option (List Char × List Char)
  | [] => none
  | c :: rest =>
      match stripLit "VID_" (c :: rest) with
      | some after =>
          (match hexQuadAt after with
           | some (vq, tail) =>
               match (pidQuads (tail.takeWhile fun ch => ch ≠ '\n')).getLast? with
               | some pq => some (vq, pq)
               | none => searchVidPid rest
           | none => searchVidPid rest)
      | none => searchVidPid rest

/-- `UsbScanner._parse_vid_pid` / `_topology_parse_vid_pid` (textually
identical in the source): uppercase 4-hex VID and PID parsed from a PnP
device id, or `("", "")`. -/
def parseVidPidId (s : String) : String × String :=
  match searchVidPid s.data with
  | some (vq, pq) => (String.mk (pyUpper vq), String.mk (pyUpper pq))
  | none => ("", "")

/-- `re.split(r"[\\#]", s)`: split at every backslash or hash, keeping
empty fields. -/
def splitIdSeps : List Char → List (List Char)
  | [] => [[]]
  | c :: rest =>
      let r := splitIdSeps rest
      if c = '\\' || c = '#' then [] :: r
      else
        match r with
        | [] => [[c]]
        | h :: t => (c :: h) :: t

/-- `UsbScanner._parse_serial_from_pnpid` / `_topology_parse_serial_from_pnpid`
(textually identical in the source): uppercase final path segment of a PnP
device id. -/
def parseSerialTailId (s : String) : String :=
  if s = "" then ""
  else
    match (splitIdSeps s.data).getLast? with
    | some lastPart => String.mk (pyUpper lastPart)
    | none => ""

/-- Case-insensitive literal match returning the matched original
characters and the remainder. -/
def matchCI : List Char → List Char → Option (List Char × List Char)
  | [], rest => some ([], rest)
  | _ :: _, [] => none
  | l :: ls, c :: cs =>
      if c.toLower = l.toLower then
        (matchCI ls cs).map fun p => (c :: p.1, p.2)
      else none

theorem matchCI_length (lit : List Char) :
    ∀ cs m rest, matchCI lit cs = some (m, rest) →
      cs.length = lit.length + rest.length := by
  induction lit with
  | nil =>
      intro cs m rest h
      simp only [matchCI, Option.some.injEq, Prod.mk.injEq] at h
      rw [← h.2]
      simp
  | cons l ls ih =>
      intro cs m rest h
      cases cs with
      | nil => simp [matchCI] at h
      | cons c cs' =>
          simp only [matchCI] at h
          split at h
          · cases hm : matchCI ls cs' with
            | none => rw [hm] at h; simp at h
            | some p =>
                rw [hm] at h
                simp only [Option.map_some', Option.some.injEq,
                  Prod.mk.injEq] at h
                have hrec := ih cs' p.1 p.2 (by rw [hm])
                rw [← h.2]
                simp only [List.length_cons]
                omega
          · simp at h

/-- One alternative of `(Port_#\d+|Hub_#\d+)` at the current position
(`re.IGNORECASE`, greedy `\d+`): the matched text and the remainder. -/
def portHubTokenAt (cs : List Char) : Option (List Char × List Char) :=
  match matchCI "Port_#".data cs with
  | some (m, rest) =>
      let ds := rest.takeWhile Char.isDigit
      if ds ≠ [] then some (m ++ ds, rest.drop ds.length)
      else hubAlt cs
  | none => hubAlt cs
where
  hubAlt (cs : List Char) : Option (List Char × List Char) :=
    match matchCI "Hub_#".data cs with
    | some (m, rest) =>
        let ds := rest.takeWhile Char.isDigit
        if ds ≠ [] then some (m ++ ds, rest.drop ds.length) else none
    | none => none

theorem portHubTokenAt_shrinks (cs : List Char) (tok after : List Char)
    (h : portHubTokenAt cs = some (tok, after)) : after.length < cs.length := by
  have hub : ∀ t a, portHubTokenAt.hubAlt cs = some (t, a) → a.length < cs.length := by
    intro t a hh
    unfold portHubTokenAt.hubAlt at hh
    cases hm : matchCI "Hub_#".data cs with
    | none => rw [hm] at hh; simp at hh
    | some p =>
        obtain ⟨m, rest⟩ := p
        rw [hm] at hh
        simp only at hh
        split at hh
        · have hlen := matchCI_length _ cs m rest hm
          have hfive : ("Hub_#".data).length = 5 := rfl
          simp only [Option.some.injEq, Prod.mk.injEq] at hh
          have hle : a.length ≤ rest.length := by
            rw [← hh.2]; simp [List.length_drop]
          omega
        · simp at hh
  unfold portHubTokenAt at h
  cases hm : matchCI "Port_#".data cs with
  | none => rw [hm] at h; exact hub _ _ h
  | some p =>
      obtain ⟨m, rest⟩ := p
      rw [hm] at h
      simp only at h
      split at h
      · have hlen := matchCI_length _ cs m rest hm
        have hsix : ("Port_#".data).length = 6 := rfl
        simp only [Option.some.injEq, Prod.mk.injEq] at h
        have hle : after.length ≤ rest.length := by
          rw [← h.2]; simp [List.length_drop]
        omega
      · exact hub _ _ h

/-- `PORT_TOKEN_RE.findall`: scan left to right; emit each non-overlapping
token match and continue after it, else advance one character. -/
def findPortHubTokens (cs : List Char) : List String :=
  match h : portHubTokenAt cs with
  | some (tok, after) =>
      String.mk tok :: findPortHubTokens after
  | none =>
      match cs with
      | [] => []
      | _ :: rest => findPortHubTokens rest
termination_by cs.length
decreasing_by
  · exact portHubTokenAt_shrinks cs tok after h
  · simp

/-- `_topology_parse_location_chain`: token sequence of a
`LocationInformation` string. -/
def topologyParseLocationChain (s : String) : List String :=
  if s = "" then [] else findPortHubTokens s.data

/-- `_topology_norm`: `(value or "").strip()`. -/
def topologyNorm : Option String → String
  | none => ""
  | some s => String.mk (pyStrip s.data)

/-- `_topology_normalize_vid_pid`: strip, uppercase, drop a `0X` prefix,
zero-fill to 4. -/
def topologyNormalizeVidPid : Option String → String
  | none => ""
  | some v =>
      let text := pyUpper (pyStrip v.data)
      let text := if ("0X".data).isPrefixOf text then text.drop 2 else text
      String.mk (zfillL 4 text)

/-- `(vid, pid, serial)` key of the topology mapping. -/
abbrev TopoKey := String × String × String

/-- The per-device entry `_TopologyResolver.build_mapping` stores. -/
structure TopoEntry where
  pnp_device_id : String
  location_information : String
  location_fallback : String
  port_hub_chain : List String
  usb_controllers : List String
  deriving Repr, DecidableEq

/-- Python `dict.get` on the topology mapping (association list model). -/
def dictGet (m : List (TopoKey × TopoEntry)) (k : TopoKey) : Option TopoEntry :=
  match m.find? (fun kv => decide (kv.1 = k)) with
  | some kv => some kv.2
  | none => none

/-- Python `dict[k] = v`: overwrite in place, or append a new binding. -/
def dictSet (m : List (TopoKey × TopoEntry)) (k : TopoKey) (v : TopoEntry) :
    List (TopoKey × TopoEntry) :=
  if m.any (fun kv => decide (kv.1 = k)) then
    m.map fun kv => if kv.1 = k then (k, v) else kv
  else m ++ [(k, v)]

/-- Python `dict.setdefault(k, v)`: insert only when the key is absent. -/
def dictSetdefault (m : List (TopoKey × TopoEntry)) (k : TopoKey)
    (v : TopoEntry) : List (TopoKey × TopoEntry) :=
  if (dictGet m k).isSome then m else m ++ [(k, v)]

/-- One `Win32_PnPEntity` row as `_TopologyResolver.build_mapping` reads
it: `DeviceID` and `LocationInformation` attributes, possibly `None`. -/
structure PnPEntity where
  deviceID : Option String := none
  locationInformation : Option String := none
  deriving Repr, DecidableEq

/-- The resolution of one `Win32_PnPEntity` row inside
`_TopologyResolver.build_mapping`: `none` when the loop skips the row
(non-USB-rooted id, or VID/PID parse failure), else the parsed
`(vid, pid, serial)` triple together with the entry built for it.  The
controller indices produced by `_map_entity_to_controller` /
`_controller_names` are passed in as the functions `depToCtrl` /
`ctrlNames`. -/
def entityRecord (depToCtrl : String → List String)
    (ctrlNames : String → Option String) (dev : PnPEntity) :
    Option (String × String × String × TopoEntry) :=
  let device_id := topologyNorm dev.deviceID
  if ¬ (("USB\\".data).isPrefixOf device_id.data = true) then none
  else
    let vp := parseVidPidId device_id
    if vp.1 = "" ∨ vp.2 = "" then none
    else
      let serial := parseSerialTailId device_id
      let location_info := topologyNorm dev.locationInformation
      let chain := topologyParseLocationChain location_info
      let controllers :=
        (depToCtrl device_id).map fun cid => (ctrlNames cid).getD cid
      some (vp.1, vp.2, serial,
        { pnp_device_id := device_id
          location_information := location_info
          location_fallback := ""
          port_hub_chain := chain
          usb_controllers := controllers })

/-- The body of `_TopologyResolver.build_mapping`'s loop for one entity:
index the resolved entry under `(vid, pid, serial)` by plain dict
assignment, then under `(vid, pid, "")` by `setdefault`. -/
def buildMappingStep (depToCtrl : String → List String)
    (ctrlNames : String → Option String)
    (mapping : List (TopoKey × TopoEntry)) (dev : PnPEntity) :
    List (TopoKey × TopoEntry) :=
  match entityRecord depToCtrl ctrlNames dev with
  | none => mapping
  | some (vid, pid, serial, entry) =>
      dictSetdefault (dictSet mapping (vid, pid, serial) entry)
        (vid, pid, "") entry

/-- `_TopologyResolver.build_mapping` over the `Win32_PnPEntity` rows. -/
def buildMapping (depToCtrl : String → List String)
    (ctrlNames : String → Option String) (entities : List PnPEntity) :
    List (TopoKey × TopoEntry) :=
  entities.foldl (buildMappingStep depToCtrl ctrlNames) []

/-- `_topology_snapshot_key`. -/
def topologySnapshotKey (snap : UsbDeviceSnapshot) (includeSerial : Bool) :
    TopoKey :=
  (topologyNormalizeVidPid (some snap.vid),
   topologyNormalizeVidPid (some snap.pid),
   if includeSerial then normalizeSerial (some snap.serial) else "")

/-- The lookup in `annotate_windows_topology`:
`mapping.get(key_with_serial) or mapping.get(key_without_serial)` — the
stored entries are non-empty dicts, hence always truthy. -/
def lookupTopology (mapping : List (TopoKey × TopoEntry))
    (snap : UsbDeviceSnapshot) : Option TopoEntry :=
  match dictGet mapping (topologySnapshotKey snap true) with
  | some entry => some entry
  | none => dictGet mapping (topologySnapshotKey snap false)

/-- Effect of `annotate_windows_topology` on one snapshot: leave it
untouched when no entry resolves, else overwrite the four topology
fields. -/
def annotateSnapshot (mapping : List (TopoKey × TopoEntry))
    (snap : UsbDeviceSnapshot) : UsbDeviceSnapshot :=
  match lookupTopology mapping snap with
  | none => snap
  | some entry =>
      { snap with
        topology_chain := entry.port_hub_chain
        location_information := entry.location_information
        location_fallback := entry.location_fallback
        usb_controllers := entry.usb_controllers }

/-! ### `UsbScanner.is_usb_device_connected` (`scanners.py`) -/

/-- Lowercase hex digit for a nibble. -/
def hexDigitChar (n : Nat) : Char :=
  if n < 10 then Char.ofNat (48 + n) else Char.ofNat (87 + n)

/-- Hex digits of a number, most significant first; `fuel` bounds the
recursion structurally and `fuel = n` always suffices (the value shrinks
by a factor of 16 every step). -/
def natToHexDigits (fuel n : Nat) (acc : List Char) : List Char :=
  match fuel with
  | 0 => acc
  | fuel + 1 =>
      if n = 0 then acc
      else natToHexDigits fuel (n / 16) (hexDigitChar (n % 16) :: acc)

/-- Python `hex(n)` for `n : Int`: `0x` prefix, lowercase digits, no
padding, `-` sign in front for negatives. -/
def pyHexInt (n : Int) : String :=
  let digits :=
    if n.natAbs = 0 then ['0'] else natToHexDigits n.natAbs n.natAbs []
  if n < 0 then String.mk ('-' :: '0' :: 'x' :: digits)
  else String.mk ('0' :: 'x' :: digits)

/-- `UsbScanner._normalize_vid_pid` on the values the pyusb path feeds it
(`getattr(device, "idVendor", None)`: an `int` or `None`): `None` becomes
`""`, an `int` becomes `hex(value)`. -/
def normalizeVidPidValue : Option Int → String
  | none => ""
  | some n => pyHexInt n

/-- Python `str(x)` for an `Optional[str]`: `str(None) = "None"`. -/
def strOfOptStr : Option String → String
  | none => "None"
  | some s => s

/-- One pyusb device as `is_usb_device_connected` reads it. -/
structure PyUsbDevice where
  idVendor : Option Int := none
  idProduct : Option Int := none
  serialString : Option String := none
  deriving Repr, DecidableEq

/-- The non-Windows branch of `UsbScanner.is_usb_device_connected` over
the enumerated devices: raw lowercase string comparison of the caller's
`vid`/`pid` against `hex()`-rendered device ids, and, when a serial is
supplied, exact `str()` equality against the device serial. -/
def isUsbDeviceConnectedPyusb (devices : List PyUsbDevice)
    (vid pid : String) (serial : Option String) : Bool :=
  devices.any fun device =>
    let devVidStr := normalizeVidPidValue device.idVendor
    let devPidStr := normalizeVidPidValue device.idProduct
    (pyLower vid.data = pyLower devVidStr.data &&
     pyLower pid.data = pyLower devPidStr.data) &&
    (serial = none || strOfOptStr serial = strOfOptStr device.serialString)

/-- `UsbScanner._normalize_vid_token`:
`str(value or "").strip().upper()`, drop a `0X` prefix, zero-fill to 4. -/
def normalizeVidToken (value : Option String) : String :=
  let v := match value with | none => "" | some s => s
  let text := pyUpper (pyStrip v.data)
  let text := if ("0X".data).isPrefixOf text then text.drop 2 else text
  String.mk (zfillL 4 text)

/-- One `Win32_PnPEntity` row as `_is_connected_windows` reads it. -/
structure WinPnPDevice where
  deviceID : Option String := none
  deriving Repr, DecidableEq

/-- `getattr(dev, "DeviceID", "") or ""`. -/
def winDeviceIdStr (dev : WinPnPDevice) : String :=
  match dev.deviceID with
  | none => ""
  | some s => s

/-- `UsbScanner._is_connected_windows` over the `Win32_PnPEntity` rows:
normalize the target tokens, then accept any USB-rooted row whose parsed
VID/PID equal them, with the strict serial check whenever the normalized
target serial is non-empty.  (`UsbScanner._normalize_serial` performs the
same computation as `device_models._normalize_serial`; `normalizeSerial`
models both.) -/
def isConnectedWindows (entities : List WinPnPDevice)
    (vid pid : String) (serial : Option String) : Bool :=
  let targetVid := normalizeVidToken (some vid)
  let targetPid := normalizeVidToken (some pid)
  let targetSerial := normalizeSerial serial
  entities.any fun dev =>
    let device_id := winDeviceIdStr dev
    ("USB\\".data).isPrefixOf device_id.data &&
    decide ((parseVidPidId device_id).1 = targetVid ∧
      (parseVidPidId device_id).2 = targetPid ∧
      ¬ (targetSerial ≠ "" ∧ parseSerialTailId device_id ≠ targetSerial))

/-! ### Classifier (`com_analyze.py`) -/

/-- `com_analyze.norm`: `(s or "").strip()`. -/
def caNorm : Option String → String
  | none => ""
  | some s => String.mk (pyStrip s.data)

/-- `com_analyze.upper`: `norm(s).upper()`. -/
def caUpper (s : Option String) : String :=
  String.mk (pyUpper (caNorm s).data)

/-- `com_analyze.PortInfo`. -/
structure PortInfo where
  com : String
  description : String
  hwid : String
  vid_hex : Option String := none
  pid_hex : Option String := none
  serialNo : Option String := none
  location : Option String := none
  manufacturer : Option String := none
  product : Option String := none
  deriving Repr, DecidableEq

/-- `com_analyze.WmiPnP`. -/
structure WmiPnP where
  device_id : String
  name : String
  pnp_class : String
  manufacturer : String
  location_info : String
  status : String
  deriving Repr, DecidableEq

/-- `in` test on strings. -/
def strContains (needle hay : String) : Bool :=
  containsSub needle.data hay.data

/-- `str.startswith` on strings. -/
def strStarts (hay pre : String) : Bool :=
  pre.data.isPrefixOf hay.data

/-- `com_analyze.classify_port`: strictly ordered rule cascade returning
`(kind, confidence, reasons)`.  Confidences are the source's float
literals, represented exactly as rationals. -/
def classifyPort (port : PortInfo) (pnp : Option WmiPnP) :
    String × ℚ × List String :=
  if strContains "BTHENUM" (caUpper (some port.hwid)) ||
     strContains "BLUETOOTH" (caUpper (some port.hwid)) ||
     strContains "RFCOMM" (caUpper (some port.description)) ||
     strContains "BLUETOOTH" (caUpper (some port.description)) then
    ("Bluetooth", 95/100,
     ["hwid/desc indicates Bluetooth (BTHENUM/BLUETOOTH/RFCOMM)"])
  else if truthyStr port.vid_hex && truthyStr port.pid_hex then
    ("USB", 92/100, ["VID/PID available (likely USB-serial)"])
  else if strStarts (caUpper (some port.hwid)) "USB\\" ||
          strContains " USB" (" " ++ caUpper (some port.description)) then
    ("USB", 75/100, ["hwid/desc suggests USB"])
  else if strStarts (caUpper (some port.hwid)) "ACPI\\" ||
          strStarts (caUpper (some port.hwid)) "PCI\\" ||
          strContains "PNP0501" (caUpper (some port.hwid)) ||
          strContains "PNP0500" (caUpper (some port.hwid)) then
    ("RS-232/PCI/ACPI", 85/100, ["hwid indicates ACPI/PCI standard serial"])
  else if (match pnp with
           | some p => caUpper (some p.pnp_class) = "PORTS"
           | none => false) &&
          (!strContains "USB\\" (caUpper (some port.hwid)) &&
           !strContains "BTHENUM" (caUpper (some port.hwid))) then
    ("RS-232/PCI/ACPI", 60/100, ["PnPClass=Ports but not USB/Bluetooth"])
  else
    ("Unknown", 30/100, ["no strong indicators found"])

/-! ### Helper lemmas on the Python string primitives -/

theorem toNat_ofNat_valid (n : Nat) (h : n < 55296) :
    (Char.ofNat n).toNat = n := by
  rw [Char.ofNat, dif_pos (Or.inl h)]
  rfl

theorem char_eq_iff_toNat (c d : Char) : c = d ↔ c.toNat = d.toNat := by
  constructor
  · intro h; rw [h]
  · intro h
    apply Char.ext
    exact UInt32.toNat.inj h

theorem toUpper_idem (c : Char) : c.toUpper.toUpper = c.toUpper := by
  unfold Char.toUpper
  by_cases h : c.toNat ≥ 97 ∧ c.toNat ≤ 122
  · rw [if_pos h]
    have hv : (Char.ofNat (c.toNat - 32)).toNat = c.toNat - 32 :=
      toNat_ofNat_valid _ (by omega)
    rw [if_neg (by rw [hv]; omega)]
  · rw [if_neg h, if_neg h]

theorem toLower_idem (c : Char) : c.toLower.toLower = c.toLower := by
  unfold Char.toLower
  by_cases h : c.toNat ≥ 65 ∧ c.toNat ≤ 90
  · rw [if_pos h]
    have hv : (Char.ofNat (c.toNat + 32)).toNat = c.toNat + 32 :=
      toNat_ofNat_valid _ (by omega)
    rw [if_neg (by rw [hv]; omega)]
  · rw [if_neg h, if_neg h]

theorem isPySpace_iff (c : Char) :
    isPySpace c = true ↔
      c.toNat = 32 ∨ c.toNat = 9 ∨ c.toNat = 10 ∨ c.toNat = 13 ∨
      c.toNat = 11 ∨ c.toNat = 12 := by
  simp only [isPySpace, Bool.or_eq_true, decide_eq_true_eq]
  constructor
  · rintro (((((h | h) | h) | h) | h) | h) <;> rw [h] <;> simp [Char.toNat]
  · intro h
    rcases h with h | h | h | h | h | h
    · exact Or.inl <| Or.inl <| Or.inl <| Or.inl <| Or.inl <|
        (char_eq_iff_toNat _ _).mpr (by simpa using h)
    · exact Or.inl <| Or.inl <| Or.inl <| Or.inl <| Or.inr <|
        (char_eq_iff_toNat _ _).mpr (by simpa using h)
    · exact Or.inl <| Or.inl <| Or.inl <| Or.inr <|
        (char_eq_iff_toNat _ _).mpr (by simpa using h)
    · exact Or.inl <| Or.inl <| Or.inr <|
        (char_eq_iff_toNat _ _).mpr (by simpa using h)
    · exact Or.inl <| Or.inr <| (char_eq_iff_toNat _ _).mpr (by simpa using h)
    · exact Or.inr <| (char_eq_iff_toNat _ _).mpr (by simpa using h)

theorem isPySpace_toUpper (c : Char) : isPySpace c.toUpper = isPySpace c := by
  unfold Char.toUpper
  by_cases h : c.toNat ≥ 97 ∧ c.toNat ≤ 122
  · rw [if_pos h]
    have hv : (Char.ofNat (c.toNat - 32)).toNat = c.toNat - 32 :=
      toNat_ofNat_valid _ (by omega)
    have h1 : isPySpace (Char.ofNat (c.toNat - 32)) = false := by
      cases hps : isPySpace (Char.ofNat (c.toNat - 32)) with
      | false => rfl
      | true => exact absurd ((isPySpace_iff _).mp hps) (by omega)
    have h2 : isPySpace c = false := by
      cases hps : isPySpace c with
      | false => rfl
      | true => exact absurd ((isPySpace_iff _).mp hps) (by omega)
    rw [h1, h2]
  · rw [if_neg h]

theorem isPySpace_toLower (c : Char) : isPySpace c.toLower = isPySpace c := by
  unfold Char.toLower
  by_cases h : c.toNat ≥ 65 ∧ c.toNat ≤ 90
  · rw [if_pos h]
    have hv : (Char.ofNat (c.toNat + 32)).toNat = c.toNat + 32 :=
      toNat_ofNat_valid _ (by omega)
    have h1 : isPySpace (Char.ofNat (c.toNat + 32)) = false := by
      cases hps : isPySpace (Char.ofNat (c.toNat + 32)) with
      | false => rfl
      | true => exact absurd ((isPySpace_iff _).mp hps) (by omega)
    have h2 : isPySpace c = false := by
      cases hps : isPySpace c with
      | false => rfl
      | true => exact absurd ((isPySpace_iff _).mp hps) (by omega)
    rw [h1, h2]
  · rw [if_neg h]

theorem pyStrip_eq (l : List Char) :
    pyStrip l = List.rdropWhile isPySpace (List.dropWhile isPySpace l) := rfl

theorem dropWhile_pyStrip (l : List Char) :
    List.dropWhile isPySpace (pyStrip l) = pyStrip l := by
  rw [List.dropWhile_eq_self_iff]
  intro hl
  have hpre : pyStrip l <+: List.dropWhile isPySpace l := by
    rw [pyStrip_eq]; exact List.rdropWhile_prefix _ _
  have hm : 0 < (List.dropWhile isPySpace l).length :=
    lt_of_lt_of_le hl hpre.length_le
  have hg : (pyStrip l).get ⟨0, hl⟩ =
      (List.dropWhile isPySpace l).get ⟨0, hm⟩ := by
    simpa using hpre.getElem (by exact hl)
  rw [hg]
  exact List.dropWhile_get_zero_not _ _ hm

theorem pyStrip_idem (l : List Char) : pyStrip (pyStrip l) = pyStrip l := by
  rw [pyStrip_eq (pyStrip l), dropWhile_pyStrip, pyStrip_eq l]
  exact List.rdropWhile_idempotent _ _

theorem pyStrip_map (f : Char → Char)
    (hf : ∀ c, isPySpace (f c) = isPySpace c) (l : List Char) :
    pyStrip (l.map f) = (pyStrip l).map f := by
  have hcomp : (isPySpace ∘ f) = isPySpace := funext hf
  unfold pyStrip
  rw [List.dropWhile_map, hcomp, ← List.map_reverse, List.dropWhile_map, hcomp,
    ← List.map_reverse]

theorem pyUpper_idem (l : List Char) : pyUpper (pyUpper l) = pyUpper l := by
  unfold pyUpper
  rw [List.map_map]
  exact List.map_congr_left fun c _ => toUpper_idem c

theorem pyStrip_pyUpper (l : List Char) :
    pyStrip (pyUpper l) = pyUpper (pyStrip l) :=
  pyStrip_map Char.toUpper isPySpace_toUpper l

theorem zfillL_le_length (w : Nat) (l : List Char) :
    w ≤ (zfillL w l).length := by
  unfold zfillL
  split
  · omega
  · split
    · simp
    · rename_i hlt c rest
      split
      · simp only [List.length_cons, List.length_append, List.length_replicate]
        omega
      · simp only [List.length_append, List.length_replicate, List.length_cons]
        omega

theorem zfillL_of_le (w : Nat) (l : List Char) (h : w ≤ l.length) :
    zfillL w l = l := by
  unfold zfillL
  rw [if_pos h]

theorem mem_zfillL (w : Nat) (l : List Char) (c : Char)
    (hc : c ∈ zfillL w l) : c = '0' ∨ c ∈ l := by
  unfold zfillL at hc
  split at hc
  · right; exact hc
  · split at hc
    · left; exact List.eq_of_mem_replicate hc
    · rename_i hlt a rest
      split at hc
      · rcases List.mem_cons.mp hc with h | h
        · right; rw [h]; exact List.mem_cons_self _ _
        · rcases List.mem_append.mp h with h | h
          · left; exact List.eq_of_mem_replicate h
          · right; exact List.mem_cons_of_mem _ h
      · rcases List.mem_append.mp hc with h | h
        · left; exact List.eq_of_mem_replicate h
        · right; exact h

/-- Both serial normalizers (`device_models._normalize_serial` and its
`scanners.py` twin) are idempotent. -/
theorem normalizeSerial_idem (x : Option String) :
    normalizeSerial (some (normalizeSerial x)) = normalizeSerial x := by
  cases x with
  | none => decide
  | some v =>
      show normalizeSerial (some (normalizeSerial (some v))) = _
      unfold normalizeSerial
      simp only
      by_cases hs : pyUpper (pyStrip v.data) = [] ∨
          pyUpper (pyStrip v.data) = "取得不可".data ∨
          pyUpper (pyStrip v.data) = "-".data
      · rw [if_pos hs]
        decide
      · rw [if_neg hs]
        have hdata : (String.mk (pyUpper (pyStrip v.data))).data =
            pyUpper (pyStrip v.data) := rfl
        have hstrip : pyStrip (pyUpper (pyStrip v.data)) =
            pyUpper (pyStrip v.data) := by
          rw [pyStrip_pyUpper, pyStrip_idem]
        rw [hdata, hstrip, pyUpper_idem, if_neg hs]

theorem normalizeHex_idem_of (v : String)
    (h1 : pyStrip (normalizeHex (some v)).data = (normalizeHex (some v)).data)
    (h2 : ("0x".data).isPrefixOf (normalizeHex (some v)).data = false) :
    normalizeHex (some (normalizeHex (some v))) = normalizeHex (some v) := by
  have hlen : 4 ≤ (normalizeHex (some v)).data.length := by
    show 4 ≤ (String.mk (zfillL 4 _)).data.length
    exact zfillL_le_length 4 _
  have hlower : pyLower (normalizeHex (some v)).data =
      (normalizeHex (some v)).data := by
    have hfix : ∀ c ∈ (normalizeHex (some v)).data, Char.toLower c = c := by
      intro c hc
      have hc' : c ∈ zfillL 4 (if ("0x".data).isPrefixOf
          (pyLower (pyStrip v.data)) then (pyLower (pyStrip v.data)).drop 2
          else pyLower (pyStrip v.data)) := hc
      rcases mem_zfillL _ _ _ hc' with h0 | hmem
      · rw [h0]; rfl
      · have hlow : c ∈ pyLower (pyStrip v.data) := by
          revert hmem
          split
          · intro hmem; exact List.mem_of_mem_drop hmem
          · intro hmem; exact hmem
        obtain ⟨c', _, rfl⟩ := List.mem_map.mp hlow
        exact toLower_idem c'
    show List.map Char.toLower (normalizeHex (some v)).data = _
    rw [List.map_congr_left fun c hc => hfix c hc, List.map_id']
  set r := normalizeHex (some v) with hr
  have hstep : normalizeHex (some r) =
      String.mk (zfillL 4 (if ("0x".data).isPrefixOf
        (pyLower (pyStrip r.data)) = true
        then (pyLower (pyStrip r.data)).drop 2
        else pyLower (pyStrip r.data))) := rfl
  rw [hstep, h1]
  show String.mk (zfillL 4 (if ("0x".data).isPrefixOf (pyLower r.data) = true
    then (pyLower r.data).drop 2 else pyLower r.data)) = r
  rw [hlower, h2]
  simp only [Bool.false_eq_true, if_false]
  rw [zfillL_of_le 4 _ hlen]

/-- C5.  The claim's universal idempotence fails for the VID/PID
normalizer: `_normalize_hex("x31")` is `"0x31"` (zero-padding manufactures
a `0x` prefix), and renormalizing that yields `"0031"`. -/
theorem C5_counterexample :
    normalizeHex (some (normalizeHex (some "x31"))) ≠
      normalizeHex (some "x31") := by decide

/-- C5 (amended).  The serial normalizer is idempotent for every input,
and the VID/PID normalizer is idempotent for every input whose normalized
form has no leading/trailing whitespace and does not itself begin with
`0x` (which covers all well-formed VID/PID spellings); the claimed
concrete equalities all hold. -/
theorem C5_normalizers_amended :
    (∀ x : Option String,
       normalizeSerial (some (normalizeSerial x)) = normalizeSerial x) ∧
    (∀ v : String,
       pyStrip (normalizeHex (some v)).data = (normalizeHex (some v)).data →
       ("0x".data).isPrefixOf (normalizeHex (some v)).data = false →
       normalizeHex (some (normalizeHex (some v))) = normalizeHex (some v)) ∧
    normalizeHex (some "0x1234") = "1234" ∧
    normalizeHex (some "1234") = "1234" ∧
    normalizeHex (some "0X1234") = "1234" ∧
    normalizeHex (some "0x1234") = normalizeHex (some "1234") ∧
    normalizeHex (some "0X1234") = normalizeHex (some "1234") ∧
    normalizeSerial (some "") = "" ∧
    normalizeSerial (some "-") = "" ∧
    normalizeSerial (some "取得不可") = "" :=
  ⟨normalizeSerial_idem, normalizeHex_idem_of, by decide, by decide, by decide,
   by decide, by decide, by decide, by decide, by decide⟩

/-- C5 witness: the conditional hex idempotence applied at `"ab12"`. -/
theorem C5_normalizers_amended_witness :
    normalizeHex (some (normalizeHex (some "ab12"))) =
      normalizeHex (some "ab12") :=
  C5_normalizers_amended.2.1 "ab12" (by decide) (by decide)

theorem normalizeHex_some_ne_empty (s : String) : normalizeHex (some s) ≠ "" := by
  intro h
  have h4 : 4 ≤ (normalizeHex (some s)).data.length := zfillL_le_length 4 _
  rw [h] at h4
  simp at h4

/-- C2.  A COM port record matches a snapshot iff normalized VID and PID
agree and (the snapshot's normalized serial is empty or equals the port's);
`_match_com_port` returns the `device` field of the first matching record
in enumeration order; a snapshot with a non-empty normalized serial never
matches a port whose normalized serial is empty. -/
theorem C2_port_matching_rule :
    (∀ (snap : UsbDeviceSnapshot) (ports : List ComPortRecord),
       matchComPort snap ports =
         (ports.find? (matchesPort snap)).bind fun port => port.device) ∧
    (∀ (snap : UsbDeviceSnapshot) (port : ComPortRecord),
       matchesPort snap port = true ↔
         normalizeHex port.vid = normalizeHex (some snap.vid) ∧
         normalizeHex port.pid = normalizeHex (some snap.pid) ∧
         (normalizeSerial (some snap.serial) = "" ∨
          normalizeSerial (some snap.serial) = normalizeSerial port.serial_number)) ∧
    (∀ (snap : UsbDeviceSnapshot) (port : ComPortRecord),
       normalizeSerial (some snap.serial) ≠ "" →
       normalizeSerial port.serial_number = "" →
       matchesPort snap port = false) := by
  refine ⟨?_, ?_, ?_⟩
  · intro snap ports
    induction ports with
    | nil => rfl
    | cons port rest ih =>
        by_cases hvp : normalizeHex port.vid = normalizeHex (some snap.vid) ∧
            normalizeHex port.pid = normalizeHex (some snap.pid)
        · by_cases hs : normalizeSerial (some snap.serial) ≠ "" ∧
              normalizeSerial (some snap.serial) ≠ normalizeSerial port.serial_number
          · have hm : matchesPort snap port = false := by
              simp only [matchesPort, decide_eq_false_iff_not]
              rintro ⟨-, -, h⟩
              rcases h with h | h
              · exact hs.1 h
              · exact hs.2 h
            rw [show matchComPort snap (port :: rest) = matchComPort snap rest by
                  simp only [matchComPort]; rw [if_pos hvp, if_pos hs],
                List.find?_cons_of_neg _ (by simp [hm]), ih]
          · have hm : matchesPort snap port = true := by
              simp only [matchesPort, decide_eq_true_eq]
              refine ⟨hvp.1, hvp.2, ?_⟩
              by_cases h1 : normalizeSerial (some snap.serial) = ""
              · exact Or.inl h1
              · right
                by_contra h2
                exact hs ⟨h1, h2⟩
            rw [show matchComPort snap (port :: rest) = port.device by
                  simp only [matchComPort]; rw [if_pos hvp, if_neg hs],
                List.find?_cons_of_pos _ hm]
            rfl
        · have hm : matchesPort snap port = false := by
            simp only [matchesPort, decide_eq_false_iff_not]
            rintro ⟨h1, h2, -⟩
            exact hvp ⟨h1, h2⟩
          rw [show matchComPort snap (port :: rest) = matchComPort snap rest by
                simp only [matchComPort]; rw [if_neg hvp],
              List.find?_cons_of_neg _ (by simp [hm]), ih]
  · intro snap port
    simp only [matchesPort, decide_eq_true_eq]
  · intro snap port h1 h2
    simp only [matchesPort, decide_eq_false_iff_not]
    rintro ⟨-, -, h⟩
    rcases h with h | h
    · exact h1 h
    · rw [h2] at h
      exact h1 h

/-- C2 witness: spec Scenario B — snapshot serial `A50285BI`, live port
serial unknown: the strict serial rule rejects the port. -/
theorem C2_port_matching_rule_witness :
    matchesPort { vid := "0x0403", pid := "0x6001", serial := "A50285BI" }
      { device := some "COM7", vid := some "0x403", pid := some "0x6001",
        serial_number := none } = false :=
  C2_port_matching_rule.2.2 _ _ (by decide) (by decide)

/-- C10.  The claim fails on the truthiness of the error filter:
`find_snapshots` skips a snapshot only when `snapshot.error` is *truthy*
(`if snapshot.error: continue`), so a stored snapshot whose error field
is the empty string — producible by a stored JSON entry with
`"error": ""` — appears in match results even though its error field is
set, not unset. -/
theorem C10_counterexample :
    findSnapshots
      [{ vid := "0x0403", pid := "0x6001", error := some "" }]
      "0403" "6001" none =
      [{ vid := "0x0403", pid := "0x6001", error := some "" }] ∧
    ({ vid := "0x0403", pid := "0x6001",
       error := some "" } : UsbDeviceSnapshot).error ≠ none := by decide

/-- C10 (amended).  `find_snapshots` (and hence
`find_device_connections`) returns only snapshots whose error field is
*falsy* — `None` or the empty string — and whose `device_type` is
`"usb"`: error placeholders carrying a non-empty message (such as every
placeholder `load()` fabricates for a missing, unreadable or empty
store) and BLE snapshots never appear in match results. -/
theorem C10_find_filters_amended :
    (∀ (snapshots : List UsbDeviceSnapshot) (vid pid : String)
        (serial : Option String) (snap : UsbDeviceSnapshot),
       snap ∈ findSnapshots snapshots vid pid serial →
       truthyStr snap.error = false ∧ snap.device_type = "usb") ∧
    (∀ (snapshots : List UsbDeviceSnapshot) (ports : List ComPortRecord)
        (vid pid : String) (serial : Option String) (conn : Connection),
       conn ∈ findDeviceConnections snapshots ports vid pid serial →
       truthyStr conn.snapshot.error = false ∧
       conn.snapshot.device_type = "usb") ∧
    (∀ (snapshots : List UsbDeviceSnapshot) (vid pid : String)
        (serial : Option String) (message : String),
       message ≠ "" →
       placeholder message ∉ findSnapshots snapshots vid pid serial) := by
  have hfind : ∀ (snapshots : List UsbDeviceSnapshot) (vid pid : String)
      (serial : Option String) (snap : UsbDeviceSnapshot),
      snap ∈ findSnapshots snapshots vid pid serial →
      truthyStr snap.error = false ∧ snap.device_type = "usb" := by
    intro snapshots vid pid serial snap h
    have := (List.mem_filter.mp h).2
    simp only [Bool.and_eq_true, Bool.not_eq_true', decide_eq_true_eq]
      at this
    exact ⟨this.1.1.1.1, this.1.1.1.2⟩
  refine ⟨hfind, ?_, ?_⟩
  · intro snapshots ports vid pid serial conn h
    obtain ⟨snap, hsnap, rfl⟩ := List.mem_map.mp h
    have hsnap' := (List.mem_filter.mp hsnap).1
    exact hfind snapshots vid pid serial snap hsnap'
  · intro snapshots vid pid serial message hmsg hmem
    have := (hfind snapshots vid pid serial _ hmem).1
    simp only [placeholder, truthyStr] at this
    exact hmsg (by simpa using this)

/-- C10 witness: a matching USB snapshot passes the filter, at a concrete
store also containing an empty-store placeholder, which does not. -/
theorem C10_find_filters_amended_witness :
    truthyStr ({ vid := "0x0403", pid := "0x6001" } : UsbDeviceSnapshot).error
      = false ∧
    ({ vid := "0x0403", pid := "0x6001" } : UsbDeviceSnapshot).device_type
      = "usb" :=
  C10_find_filters_amended.1
    [{ vid := "0x0403", pid := "0x6001" },
     { vid := "-", pid := "-", error := some "USB/BTデバイス情報が空です" }]
    "0403" "6001" none _ (by decide)

/-- C4.  The claim fails for vid/pid: a Windows-enumerated record (whose
`vid`/`pid`/`serial_number` are all `None`) is excluded from matching a
snapshot with concrete identifiers solely because those fields are absent
— restoring the identifiers (all else equal) makes the same record
match. -/
theorem C4_counterexample :
    matchComPort { vid := "0x0403", pid := "0x6001", serial := "" }
      [{ device := some "COM3" }] = none ∧
    matchComPort { vid := "0x0403", pid := "0x6001", serial := "" }
      [{ device := some "COM3", vid := some "0x403", pid := some "0x6001" }]
      = some "COM3" := by decide

/-- C4 (amended).  Only the serial field is treated as unknown-not-
mismatch: an absent port serial normalizes to `""` and the record still
matches any snapshot whose own normalized serial is empty; an absent
`vid` or `pid` normalizes to `""`, which never equals a snapshot's
normalized identifier (always at least 4 characters), so such records are
excluded from matching. -/
theorem C4_none_fields_amended :
    (∀ (snap : UsbDeviceSnapshot) (port : ComPortRecord),
       port.vid = none → matchesPort snap port = false) ∧
    (∀ (snap : UsbDeviceSnapshot) (port : ComPortRecord),
       port.pid = none → matchesPort snap port = false) ∧
    (∀ (snap : UsbDeviceSnapshot) (port : ComPortRecord),
       port.serial_number = none →
       normalizeSerial (some snap.serial) = "" →
       normalizeHex port.vid = normalizeHex (some snap.vid) →
       normalizeHex port.pid = normalizeHex (some snap.pid) →
       matchesPort snap port = true) := by
  refine ⟨?_, ?_, ?_⟩
  · intro snap port hvid
    simp only [matchesPort, decide_eq_false_iff_not]
    rintro ⟨h1, -, -⟩
    rw [hvid] at h1
    exact normalizeHex_some_ne_empty snap.vid h1.symm
  · intro snap port hpid
    simp only [matchesPort, decide_eq_false_iff_not]
    rintro ⟨-, h2, -⟩
    rw [hpid] at h2
    exact normalizeHex_some_ne_empty snap.pid h2.symm
  · intro snap port _ hser hv hp
    simp only [matchesPort, decide_eq_true_eq]
    exact ⟨hv, hp, Or.inl hser⟩

/-- C4 witness: a record with absent vid is rejected; the same record with
serial absent but identifiers present matches an empty-serial snapshot. -/
theorem C4_none_fields_amended_witness :
    matchesPort { vid := "0x0403", pid := "0x6001", serial := "" }
      { device := some "COM3" } = false ∧
    matchesPort { vid := "0x0403", pid := "0x6001", serial := "" }
      { device := some "COM3", vid := some "0x403", pid := some "0x6001" }
      = true :=
  ⟨C4_none_fields_amended.1 _ _ rfl,
   C4_none_fields_amended.2.2 _ _ rfl (by decide) (by decide) (by decide)⟩

theorem firstTruthyPort_eq (conns : List Connection) :
    getComPortForDevice.firstTruthyPort conns =
      ((conns.filter fun e => truthyStr e.com_port).head?).bind
        (fun e => e.com_port) := by
  induction conns with
  | nil => rfl
  | cons e rest ih =>
      by_cases ht : truthyStr e.com_port = true
      · simp [getComPortForDevice.firstTruthyPort, List.filter_cons, ht]
      · simp only [Bool.not_eq_true] at ht
        simp [getComPortForDevice.firstTruthyPort, List.filter_cons, ht, ih]

/-- C1.  With one matching snapshot and two COM port records matching the
target's normalized VID/PID, resolution without a serial silently returns
the first record's port on every path: `get_com_port_for_device` performs
no ambiguity check at all, and `send_serial_command` counts matching
connections — not matching port records — so it too proceeds silently. -/
theorem C1_counterexample :
    (matchesPort { vid := "0x0403", pid := "0x6001", serial := "" }
        { device := some "COM7", vid := some "0x403", pid := some "0x6001" }
        = true ∧
     matchesPort { vid := "0x0403", pid := "0x6001", serial := "" }
        { device := some "COM8", vid := some "0x403", pid := some "0x6001" }
        = true) ∧
    getComPortForDevice [{ vid := "0x0403", pid := "0x6001", serial := "" }]
      [{ device := some "COM7", vid := some "0x403", pid := some "0x6001" },
       { device := some "COM8", vid := some "0x403", pid := some "0x6001" }]
      "0x0403" "0x6001" none = some "COM7" ∧
    sendSerialResolve [{ vid := "0x0403", pid := "0x6001", serial := "" }]
      [{ device := some "COM7", vid := some "0x403", pid := some "0x6001" },
       { device := some "COM8", vid := some "0x403", pid := some "0x6001" }]
      "0x0403" "0x6001" none = .port "COM7" := by decide

/-- C1 (amended).  Ambiguity detection lives only in
`send_serial_command` and triggers on multiple matching connections each
carrying a live port: with no serial argument it reports the explicit
ambiguity error whenever more than one candidate exists and returns a
port only when exactly one does; `get_com_port_for_device` performs no
ambiguity detection and always returns the first candidate's port. -/
theorem C1_ambiguity_amended :
    (∀ (snaps : List UsbDeviceSnapshot) (ports : List ComPortRecord)
        (vid pid : String),
       1 < (sendCandidates snaps ports vid pid none).length →
       sendSerialResolve snaps ports vid pid none = .ambiguous) ∧
    (∀ (snaps : List UsbDeviceSnapshot) (ports : List ComPortRecord)
        (vid pid name : String),
       sendSerialResolve snaps ports vid pid none = .port name →
       (sendCandidates snaps ports vid pid none).length = 1) ∧
    (∀ (snaps : List UsbDeviceSnapshot) (ports : List ComPortRecord)
        (vid pid : String) (serial : Option String),
       getComPortForDevice snaps ports vid pid serial =
         ((sendCandidates snaps ports vid pid serial).head?).bind
           (fun e => e.com_port)) := by
  refine ⟨?_, ?_, ?_⟩
  · intro snaps ports vid pid h
    have hconn : ¬ findDeviceConnections snaps ports vid pid none = [] := by
      intro hc
      have hnil : sendCandidates snaps ports vid pid none = [] := by
        unfold sendCandidates
        rw [hc]
        rfl
      rw [hnil] at h
      simp at h
    unfold sendSerialResolve
    rw [if_neg hconn]
    cases hcand : sendCandidates snaps ports vid pid none with
    | nil => rw [hcand] at h; simp at h
    | cons target rest =>
        rw [hcand] at h
        simp only [List.length_cons] at h
        simp only [resolveFromCandidates]
        split
        · rfl
        · rename_i hcond
          exact absurd ⟨by omega, by trivial⟩ hcond
  · intro snaps ports vid pid name h
    unfold sendSerialResolve at h
    split at h
    · cases h
    · cases hcand : sendCandidates snaps ports vid pid none with
      | nil => rw [hcand] at h; cases h
      | cons target rest =>
          rw [hcand] at h
          simp only [resolveFromCandidates] at h
          split at h
          · cases h
          · rename_i hcond
            have hrest : rest = [] := by
              cases rest with
              | nil => rfl
              | cons a b =>
                  exact absurd ⟨by simp only [List.length_cons]; omega,
                    by trivial⟩ hcond
            rw [hrest]
            rfl
  · intro snaps ports vid pid serial
    unfold getComPortForDevice sendCandidates
    exact firstTruthyPort_eq _

/-- C1 witness: two empty-serial snapshots sharing VID/PID and one live
matching port give two candidates, and `send_serial_command` reports the
explicit ambiguity error. -/
theorem C1_ambiguity_amended_witness :
    1 < (sendCandidates
      [{ vid := "0x0403", pid := "0x6001", serial := "" },
       { vid := "0x0403", pid := "0x6001", serial := "" }]
      [{ device := some "COM7", vid := some "0x403", pid := some "0x6001" }]
      "0x0403" "0x6001" none).length ∧
    sendSerialResolve
      [{ vid := "0x0403", pid := "0x6001", serial := "" },
       { vid := "0x0403", pid := "0x6001", serial := "" }]
      [{ device := some "COM7", vid := some "0x403", pid := some "0x6001" }]
      "0x0403" "0x6001" none = .ambiguous :=
  ⟨by decide, C1_ambiguity_amended.1 _ _ _ _ (by decide)⟩

/-- C9.  The round-trip claim fails for the empty snapshot list: `save([])`
persists an empty array, and `load()` then fabricates the "store is empty"
error placeholder instead of reproducing the empty set. -/
theorem C9_counterexample :
    ¬ ((repositoryLoad (repositorySave ([] : List UsbDeviceSnapshot))).map
        snapQuad).Perm (([] : List UsbDeviceSnapshot).map snapQuad) := by
  decide

/-- C9 (amended).  For every non-empty snapshot list `S`, loading any
permutation of the array `save(S)` persists yields a snapshot list whose
(vid, pid, serial, class_guess) quadruples are a permutation of `S`'s —
the round-trip set equivalence, independent of the persisted order. -/
theorem C9_roundtrip_amended :
    ∀ (S : List UsbDeviceSnapshot) (stored : List SnapDict),
      S ≠ [] → stored.Perm (S.map toDict) →
      ((repositoryLoad (.parsed stored)).map snapQuad).Perm
        (S.map snapQuad) := by
  intro S stored hS hperm
  have hstored : ¬ stored = [] := by
    intro h
    rw [h] at hperm
    have := List.map_eq_nil_iff.mp (hperm.nil_eq).symm
    exact hS this
  have hload : repositoryLoad (.parsed stored) =
      if stored = [] then [placeholder "USB/BTデバイス情報が空です"]
      else stored.map fromDict := rfl
  rw [hload, if_neg hstored, List.map_map]
  have h2 := hperm.map (snapQuad ∘ fromDict)
  rw [List.map_map] at h2
  have h3 : S.map ((snapQuad ∘ fromDict) ∘ toDict) = S.map snapQuad :=
    List.map_congr_left fun s _ => rfl
  rwa [h3] at h2

/-- A concrete snapshot used to instantiate the round-trip theorem. -/
def sampleSnap : UsbDeviceSnapshot :=
  { vid := "0x0403", pid := "0x6001", serial := "A50285BI",
    class_guess := "CDC-ACM" }

/-- C9 witness: round trip of a one-element store. -/
theorem C9_roundtrip_amended_witness :
    ((repositoryLoad (.parsed [toDict sampleSnap])).map snapQuad).Perm
      ([sampleSnap].map snapQuad) :=
  C9_roundtrip_amended _ _ (by simp) (List.Perm.refl _)

/-- C7.  The cascade's first rule checks `RFCOMM` only against the
description and `BTHENUM`/`BLUETOOTH` against the hardware id: a hardware
id containing `RFCOMM` (and nothing else indicative) classifies as
Unknown with confidence 0.30, not Bluetooth with 0.95. -/
theorem C7_counterexample :
    strContains "RFCOMM"
      (caUpper (some "RFCOMM\\LOCALMFG&0000" : Option String)) = true ∧
    classifyPort
      { com := "COM5", description := "Standard Serial over Link",
        hwid := "RFCOMM\\LOCALMFG&0000" } none =
      ("Unknown", 30/100, ["no strong indicators found"]) := by
  refine ⟨by decide, ?_⟩
  unfold classifyPort
  rw [if_neg (by decide), if_neg (by decide), if_neg (by decide),
    if_neg (by decide), if_neg (by decide)]

/-- C7 (amended).  The first cascade rule fires — returning kind
Bluetooth with confidence 0.95 regardless of any other co-occurring
indicators — exactly when the hardware id contains `BTHENUM` or
`BLUETOOTH`, or the description contains `RFCOMM` or `BLUETOOTH`
(case-insensitively); `RFCOMM` is never checked against the hardware id,
`BTHENUM` never against the description.  In particular any hardware id
containing `BTHENUM` classifies as Bluetooth with 0.95. -/
theorem C7_bluetooth_rule_amended :
    ∀ (port : PortInfo) (pnp : Option WmiPnP),
      classifyPort port pnp =
          ("Bluetooth", 95/100,
           ["hwid/desc indicates Bluetooth (BTHENUM/BLUETOOTH/RFCOMM)"]) ↔
        (strContains "BTHENUM" (caUpper (some port.hwid)) ||
         strContains "BLUETOOTH" (caUpper (some port.hwid)) ||
         strContains "RFCOMM" (caUpper (some port.description)) ||
         strContains "BLUETOOTH" (caUpper (some port.description))) = true := by
  intro port pnp
  by_cases hb : (strContains "BTHENUM" (caUpper (some port.hwid)) ||
      strContains "BLUETOOTH" (caUpper (some port.hwid)) ||
      strContains "RFCOMM" (caUpper (some port.description)) ||
      strContains "BLUETOOTH" (caUpper (some port.description))) = true
  · constructor
    · intro _; exact hb
    · intro _
      unfold classifyPort
      rw [if_pos hb]
  · constructor
    · intro h
      exfalso
      unfold classifyPort at h
      rw [if_neg hb] at h
      split_ifs at h <;> simp [Prod.mk.injEq] at h
    · intro h; exact absurd h hb

/-- C8.  The non-Windows path of `is_usb_device_connected` compares the
caller's strings against Python `hex()` renderings with a plain lowercase
string comparison: a device with idVendor 0x0403 / idProduct 0x6001
renders as `0x403` / `0x6001`, so the spelled-out target `("0403",
"6001")` — equal under the §4.3 normalization — is reported as not
connected. -/
theorem C8_counterexample :
    isUsbDeviceConnectedPyusb
      [{ idVendor := some 1027, idProduct := some 24577 }]
      "0403" "6001" none = false ∧
    normalizeHex (some (normalizeVidPidValue (some (1027 : Int)))) =
      normalizeHex (some "0403") ∧
    normalizeHex (some (normalizeVidPidValue (some (24577 : Int)))) =
      normalizeHex (some "6001") := by decide

/-- C8 (amended).  Only the Windows path applies the uniform §4.3-style
normalization (`0x0403`, `0403`, `0X0403` are interchangeable there): it
reports a connection iff some USB-rooted PnP row's parsed VID/PID equal
the normalized targets, with the exact-serial check applied whenever the
normalized target serial is non-empty.  The pyusb path instead reports a
connection iff some device matches under case-insensitive raw string
comparison against Python `hex()` renderings (no zero padding, mandatory
`0x`), with `str()` equality on the serial when one is supplied. -/
theorem C8_connected_amended :
    (∀ (entities : List WinPnPDevice) (vid pid : String)
        (serial : Option String),
       isConnectedWindows entities vid pid serial = true ↔
         ∃ dev ∈ entities,
           ("USB\\".data).isPrefixOf (winDeviceIdStr dev).data = true ∧
           (parseVidPidId (winDeviceIdStr dev)).1 =
             normalizeVidToken (some vid) ∧
           (parseVidPidId (winDeviceIdStr dev)).2 =
             normalizeVidToken (some pid) ∧
           (normalizeSerial serial = "" ∨
            parseSerialTailId (winDeviceIdStr dev) =
              normalizeSerial serial)) ∧
    (normalizeVidToken (some "0x0403") = "0403" ∧
     normalizeVidToken (some "0X0403") = "0403" ∧
     normalizeVidToken (some "0403") = "0403") ∧
    (∀ (devices : List PyUsbDevice) (vid pid : String)
        (serial : Option String),
       isUsbDeviceConnectedPyusb devices vid pid serial = true ↔
         ∃ d ∈ devices,
           (pyLower vid.data = pyLower (normalizeVidPidValue d.idVendor).data ∧
            pyLower pid.data =
              pyLower (normalizeVidPidValue d.idProduct).data) ∧
           (serial = none ∨
            strOfOptStr serial = strOfOptStr d.serialString)) := by
  refine ⟨?_, by decide, ?_⟩
  · intro entities vid pid serial
    simp [isConnectedWindows, List.any_eq_true, Bool.and_eq_true,
      decide_eq_true_eq]
  · intro devices vid pid serial
    simp [isUsbDeviceConnectedPyusb, List.any_eq_true, Bool.and_eq_true,
      Bool.or_eq_true, decide_eq_true_eq]

/-- Left-biased choice on optional topology entries (the value a Python
`dict.get`-with-fallback chain produces). -/
def optOr : Option TopoEntry → Option TopoEntry → Option TopoEntry
  | some e, _ => some e
  | none, o => o

theorem dictGet_append_one (m : List (TopoKey × TopoEntry))
    (k k' : TopoKey) (v : TopoEntry) :
    dictGet (m ++ [(k', v)]) k =
      optOr (dictGet m k) (if k' = k then some v else none) := by
  induction m with
  | nil =>
      by_cases hk : k' = k
      · simp [dictGet, List.find?, hk, optOr]
      · simp [dictGet, List.find?, hk, optOr]
  | cons kv m' ih =>
      by_cases hkv : kv.1 = k
      · simp only [dictGet, List.cons_append]
        rw [List.find?_cons_of_pos _ (by simp [hkv]),
          List.find?_cons_of_pos _ (by simp [hkv])]
        rfl
      · simp only [dictGet, List.cons_append]
        rw [List.find?_cons_of_neg _ (by simp [hkv]),
          List.find?_cons_of_neg _ (by simp [hkv])]
        exact ih

theorem dictGet_map_set_ne (m : List (TopoKey × TopoEntry))
    (k k' : TopoKey) (v : TopoEntry) (h : k' ≠ k) :
    dictGet (m.map fun kv => if kv.1 = k' then (k', v) else kv) k =
      dictGet m k := by
  induction m with
  | nil => rfl
  | cons kv m' ih =>
      by_cases hkv : kv.1 = k
      · have hg : (if kv.1 = k' then (k', v) else kv) = kv := by
          rw [if_neg]
          rw [hkv]
          exact fun hc => h hc.symm
        simp only [dictGet, List.map_cons, hg]
        rw [List.find?_cons_of_pos _ (by simp [hkv]),
          List.find?_cons_of_pos _ (by simp [hkv])]
      · have hg1 : ((if kv.1 = k' then (k', v) else kv)).1 ≠ k := by
          split
          · exact h
          · exact hkv
        simp only [dictGet, List.map_cons]
        rw [List.find?_cons_of_neg _ (by simp [hg1]),
          List.find?_cons_of_neg _ (by simp [hkv])]
        exact ih

theorem dictGet_dictSet_ne (m : List (TopoKey × TopoEntry))
    (k k' : TopoKey) (v : TopoEntry) (h : k' ≠ k) :
    dictGet (dictSet m k' v) k = dictGet m k := by
  unfold dictSet
  split
  · exact dictGet_map_set_ne m k k' v h
  · rw [dictGet_append_one, if_neg h]
    cases dictGet m k <;> rfl

theorem dictGet_setdefault_ne (m : List (TopoKey × TopoEntry))
    (k k' : TopoKey) (v : TopoEntry) (h : k' ≠ k) :
    dictGet (dictSetdefault m k' v) k = dictGet m k := by
  unfold dictSetdefault
  split
  · rfl
  · rw [dictGet_append_one, if_neg h]
    cases dictGet m k <;> rfl

theorem dictGet_setdefault_self (m : List (TopoKey × TopoEntry))
    (k : TopoKey) (v : TopoEntry) :
    dictGet (dictSetdefault m k v) k = optOr (dictGet m k) (some v) := by
  unfold dictSetdefault
  split
  · rename_i hsome
    cases hg : dictGet m k with
    | some e => rfl
    | none => rw [hg] at hsome; simp at hsome
  · rw [dictGet_append_one, if_pos rfl]

/-- The entry the fallback key `(v, p, "")` should hold according to the
claim: the first resolved entity with that VID/PID. -/
def firstFallback (depToCtrl : String → List String)
    (ctrlNames : String → Option String) (entities : List PnPEntity)
    (v p : String) : Option TopoEntry :=
  match entities with
  | [] => none
  | dev :: rest =>
      match entityRecord depToCtrl ctrlNames dev with
      | some (v', p', _, e) =>
          if v' = v ∧ p' = p then some e
          else firstFallback depToCtrl ctrlNames rest v p
      | none => firstFallback depToCtrl ctrlNames rest v p

theorem buildMapping_fold_fallback (depToCtrl : String → List String)
    (ctrlNames : String → Option String) :
    ∀ (entities : List PnPEntity) (m : List (TopoKey × TopoEntry))
      (v p : String),
      (∀ dev ∈ entities, ∀ v' p' s e,
         entityRecord depToCtrl ctrlNames dev = some (v', p', s, e) →
         s ≠ "") →
      dictGet (entities.foldl (buildMappingStep depToCtrl ctrlNames) m)
          (v, p, "") =
        optOr (dictGet m (v, p, ""))
          (firstFallback depToCtrl ctrlNames entities v p) := by
  intro entities
  induction entities with
  | nil =>
      intro m v p _
      simp only [List.foldl_nil, firstFallback]
      cases dictGet m (v, p, "") <;> rfl
  | cons dev rest ih =>
      intro m v p hyp
      simp only [List.foldl_cons]
      cases hrec : entityRecord depToCtrl ctrlNames dev with
      | none =>
          have hstep : buildMappingStep depToCtrl ctrlNames m dev = m := by
            unfold buildMappingStep
            rw [hrec]
          have hff : firstFallback depToCtrl ctrlNames (dev :: rest) v p =
              firstFallback depToCtrl ctrlNames rest v p := by
            have h0 : firstFallback depToCtrl ctrlNames (dev :: rest) v p =
                match entityRecord depToCtrl ctrlNames dev with
                | some (v', p', _, e) =>
                    if v' = v ∧ p' = p then some e
                    else firstFallback depToCtrl ctrlNames rest v p
                | none => firstFallback depToCtrl ctrlNames rest v p := rfl
            rw [h0, hrec]
          rw [hstep, hff,
            ih m v p fun d hd => hyp d (List.mem_cons_of_mem _ hd)]
      | some q =>
          obtain ⟨v', p', s, e⟩ := q
          have hs : s ≠ "" := hyp dev (List.mem_cons_self _ _) v' p' s e hrec
          have hstep : buildMappingStep depToCtrl ctrlNames m dev =
              dictSetdefault (dictSet m (v', p', s) e) (v', p', "") e := by
            unfold buildMappingStep
            rw [hrec]
          rw [hstep, ih _ v p fun d hd => hyp d (List.mem_cons_of_mem _ hd)]
          by_cases hvp : v' = v ∧ p' = p
          · obtain ⟨rfl, rfl⟩ := hvp
            have hne : ((v', p', s) : TopoKey) ≠ (v', p', "") := by
              intro hc
              simp only [Prod.mk.injEq] at hc
              exact hs hc.2.2
            have hff : firstFallback depToCtrl ctrlNames (dev :: rest) v' p' =
                some e := by
              have h0 : firstFallback depToCtrl ctrlNames (dev :: rest) v' p' =
                  match entityRecord depToCtrl ctrlNames dev with
                  | some (va, pa, _, ea) =>
                      if va = v' ∧ pa = p' then some ea
                      else firstFallback depToCtrl ctrlNames rest v' p'
                  | none => firstFallback depToCtrl ctrlNames rest v' p' := rfl
              rw [h0, hrec]
              simp
            rw [dictGet_setdefault_self, dictGet_dictSet_ne _ _ _ _ hne, hff]
            cases dictGet m (v', p', "") <;> rfl
          · have hne1 : ((v', p', s) : TopoKey) ≠ (v, p, "") := by
              intro hc
              simp only [Prod.mk.injEq] at hc
              exact hvp ⟨hc.1, hc.2.1⟩
            have hne2 : ((v', p', "") : TopoKey) ≠ (v, p, "") := by
              intro hc
              simp only [Prod.mk.injEq] at hc
              exact hvp ⟨hc.1, hc.2.1⟩
            have hff : firstFallback depToCtrl ctrlNames (dev :: rest) v p =
                firstFallback depToCtrl ctrlNames rest v p := by
              have h0 : firstFallback depToCtrl ctrlNames (dev :: rest) v p =
                  match entityRecord depToCtrl ctrlNames dev with
                  | some (va, pa, _, ea) =>
                      if va = v ∧ pa = p then some ea
                      else firstFallback depToCtrl ctrlNames rest v p
                  | none => firstFallback depToCtrl ctrlNames rest v p := rfl
              rw [h0, hrec]
              simp [hvp]
            rw [dictGet_setdefault_ne _ _ _ _ hne2,
              dictGet_dictSet_ne _ _ _ _ hne1, hff]

/-- C6.  A later duplicate whose parsed serial is empty does overwrite the
fallback binding: its exact key `(vid, pid, "")` coincides with the
fallback key, and the exact-key write is a plain dict assignment.  Two
USB device ids sharing VID/PID, the second ending in a path separator
(empty serial tail), leave the fallback bound to the second entry. -/
theorem C6_counterexample :
    dictGet (buildMapping (fun _ => []) (fun _ => none)
        [{ deviceID := some "USB\\VID_0403&PID_6001\\AAA" },
         { deviceID := some "USB\\VID_0403&PID_6001\\" }])
      ("0403", "6001", "") ≠
    dictGet (buildMapping (fun _ => []) (fun _ => none)
        [{ deviceID := some "USB\\VID_0403&PID_6001\\AAA" }])
      ("0403", "6001", "") ∧
    (dictGet (buildMapping (fun _ => []) (fun _ => none)
        [{ deviceID := some "USB\\VID_0403&PID_6001\\AAA" },
         { deviceID := some "USB\\VID_0403&PID_6001\\" }])
      ("0403", "6001", "")).map (fun e => e.pnp_device_id) =
      some "USB\\VID_0403&PID_6001\\" := by decide

/-- C6 (amended).  When every resolved entity's parsed serial is
non-empty, the fallback key `(vid, pid, "")` holds the first-registered
entry and later duplicates never overwrite it (an entity with an empty
parsed serial, whose exact key is the fallback key itself, does overwrite
it); per-snapshot lookup tries the exact `(vid, pid, serial)` key first,
falls back to `(vid, pid, "")`, and leaves every topology field untouched
when both are absent. -/
theorem C6_topology_indexing_amended :
    (∀ (depToCtrl : String → List String)
        (ctrlNames : String → Option String)
        (entities : List PnPEntity) (v p : String),
       (∀ dev ∈ entities, ∀ v' p' s e,
          entityRecord depToCtrl ctrlNames dev = some (v', p', s, e) →
          s ≠ "") →
       dictGet (buildMapping depToCtrl ctrlNames entities) (v, p, "") =
         firstFallback depToCtrl ctrlNames entities v p) ∧
    (∀ (mapping : List (TopoKey × TopoEntry)) (snap : UsbDeviceSnapshot),
       lookupTopology mapping snap =
         optOr (dictGet mapping (topologySnapshotKey snap true))
           (dictGet mapping (topologySnapshotKey snap false))) ∧
    (∀ (mapping : List (TopoKey × TopoEntry)) (snap : UsbDeviceSnapshot),
       lookupTopology mapping snap = none →
       annotateSnapshot mapping snap = snap) := by
  refine ⟨?_, ?_, ?_⟩
  · intro depToCtrl ctrlNames entities v p hyp
    have := buildMapping_fold_fallback depToCtrl ctrlNames entities [] v p hyp
    unfold buildMapping
    rw [this]
    rfl
  · intro mapping snap
    unfold lookupTopology
    cases dictGet mapping (topologySnapshotKey snap true) <;> rfl
  · intro mapping snap h
    unfold annotateSnapshot
    rw [h]

/-- C6 witness: the fallback lookup over a single resolved entity with a
non-empty serial. -/
theorem C6_topology_indexing_amended_witness :
    dictGet (buildMapping (fun _ => []) (fun _ => none)
        [{ deviceID := some "USB\\VID_0403&PID_6001\\AAA" }])
      ("0403", "6001", "") =
      firstFallback (fun _ => []) (fun _ => none)
        [{ deviceID := some "USB\\VID_0403&PID_6001\\AAA" }] "0403" "6001" := by
  apply C6_topology_indexing_amended.1
  intro dev hdev v' p' s e h
  have hdev' : dev =
      ({ deviceID := some "USB\\VID_0403&PID_6001\\AAA" } : PnPEntity) := by
    simpa using hdev
  subst hdev'
  have hx : (entityRecord (fun _ => []) (fun _ => none)
      ({ deviceID := some "USB\\VID_0403&PID_6001\\AAA" } : PnPEntity)).map
      (fun q => q.2.2.1) = some "AAA" := by decide
  rw [h] at hx
  simp only [Option.map_some'] at hx
  intro hs
  rw [hs] at hx
  simp at hx

/-! ### Identity lemmas (C3) -/

/-- The tail of `" | ".join(parts)`: empty after a single part, otherwise
the separator followed by the join of the rest. -/
def joinRest : List String → String
  | [] => ""
  | q :: rest => " | " ++ joinIdentityParts (q :: rest)

theorem join_cons (a : String) (t : List String) :
    joinIdentityParts (a :: t) = a ++ joinRest t := by
  cases t with
  | nil => simp [joinIdentityParts, joinRest]
  | cons q rest =>
      apply String.ext
      simp [joinIdentityParts, joinRest, List.append_assoc]

/-- The identity parts shared by every snapshot differing only in
serial: optional bus and address parts, then the VID/PID part. -/
def identityTailParts (s : UsbDeviceSnapshot) : List String :=
  ((match s.bus with | some b => ["BUS:" ++ toString b] | none => []) ++
   (match s.address with | some a => ["ADDR:" ++ toString a] | none => [])) ++
  ["VIDPID:" ++ s.vid ++ ":" ++ s.pid]

theorem usbIdentityParts_ser (snap : UsbDeviceSnapshot)
    (h : identityEffectiveSerial snap.serial ≠ "") :
    usbIdentityParts snap =
      ("SER:" ++ identityEffectiveSerial snap.serial) ::
        identityTailParts snap := by
  unfold usbIdentityParts usbIdentityMid
  rw [if_pos h, if_neg (by simp)]
  simp [identityTailParts, List.append_assoc]

theorem identity_ser_eq (snap : UsbDeviceSnapshot)
    (hble : snap.device_type ≠ "ble")
    (h : identityEffectiveSerial snap.serial ≠ "") :
    identity snap = ("SER:" ++ identityEffectiveSerial snap.serial) ++
      joinRest (identityTailParts snap) := by
  unfold identity
  rw [if_neg hble, usbIdentityParts_ser snap h, join_cons]

theorem join_head_char (a : String) (c : Char) (t : List String)
    (h : a.data.head? = some c) :
    (joinIdentityParts (a :: t)).data.head? = some c := by
  rw [join_cons]
  simp only [String.data_append]
  cases hd : a.data with
  | nil => rw [hd] at h; cases h
  | cons x xs =>
      rw [hd] at h
      simp only [List.head?_cons, Option.some.injEq] at h
      simp [h]

theorem usbIdentityMid_head_not_S (snap : UsbDeviceSnapshot)
    (h : identityEffectiveSerial snap.serial = "")
    (hd : String) (tl : List String)
    (hmid : usbIdentityMid snap = hd :: tl) :
    ∃ c, hd.data.head? = some c ∧ c ≠ 'S' := by
  have hne : ¬ identityEffectiveSerial snap.serial ≠ "" := fun hc => hc h
  unfold usbIdentityMid at hmid
  rw [if_neg hne] at hmid
  by_cases hp : snap.port_path ≠ []
  · rw [if_pos hp] at hmid
    rw [show ∀ (bm am : List String),
          (["PORT:" ++ String.intercalate "-" (snap.port_path.map toString)]
              ++ bm) ++ am =
            ("PORT:" ++ String.intercalate "-"
              (snap.port_path.map toString)) :: (bm ++ am) from
          fun bm am => by simp] at hmid
    obtain ⟨rfl, -⟩ := List.cons.inj hmid
    exact ⟨'P', rfl, by decide⟩
  · rw [if_neg hp] at hmid
    cases hbus : snap.bus with
    | some b =>
        simp only [hbus, List.nil_append, List.cons_append] at hmid
        obtain ⟨rfl, -⟩ := List.cons.inj hmid
        exact ⟨'B', rfl, by decide⟩
    | none =>
        cases haddr : snap.address with
        | some a =>
            simp only [hbus, haddr, List.nil_append,
              List.cons_append] at hmid
            obtain ⟨rfl, -⟩ := List.cons.inj hmid
            exact ⟨'A', rfl, by decide⟩
        | none =>
            simp only [hbus, haddr, List.nil_append] at hmid
            cases hmid

theorem identity_head_not_S (snap : UsbDeviceSnapshot)
    (hble : snap.device_type ≠ "ble")
    (h : identityEffectiveSerial snap.serial = "") :
    ∃ c, (identity snap).data.head? = some c ∧ c ≠ 'S' := by
  unfold identity
  rw [if_neg hble]
  unfold usbIdentityParts
  cases hmid : usbIdentityMid snap with
  | nil =>
      rw [if_pos rfl]
      exact ⟨'U', join_head_char _ 'U' _ rfl, by decide⟩
  | cons hd tl =>
      rw [if_neg (by simp)]
      rw [show (hd :: tl) ++ ["VIDPID:" ++ snap.vid ++ ":" ++ snap.pid] =
            hd :: (tl ++ ["VIDPID:" ++ snap.vid ++ ":" ++ snap.pid])
          from by simp]
      obtain ⟨c, hc, hcS⟩ := usbIdentityMid_head_not_S snap h hd tl hmid
      exact ⟨c, join_head_char _ c _ hc, hcS⟩

/-- C3.  The claim fails: two USB snapshots that agree on every field
except serial, with serials `"-"` and `"取得不可"`, are both treated as
serial-less by `identity()` and produce the same identity string. -/
theorem C3_counterexample :
    ({ vid := "0x0403", pid := "0x6001",
       serial := "取得不可" } : UsbDeviceSnapshot) =
      { ({ vid := "0x0403", pid := "0x6001",
           serial := "-" } : UsbDeviceSnapshot) with serial := "取得不可" } ∧
    ("-" : String) ≠ "取得不可" ∧
    identity { vid := "0x0403", pid := "0x6001", serial := "-" } =
      identity { vid := "0x0403", pid := "0x6001", serial := "取得不可" } := by
  decide

/-- C3 (amended).  `identity()` is a pure deterministic function of the
snapshot's fields, and two non-BLE snapshots that agree on all fields
except serial produce different identity strings whenever their
*effective* serials — the serial stripped of whitespace, with the
sentinels `"-"` and `"取得不可"` mapped to empty — differ; when the
effective serials coincide (as for the sentinel pair above) the
identities are equal. -/
theorem C3_identity_amended :
    ∀ (s : UsbDeviceSnapshot) (serialOne serialTwo : String),
      s.device_type ≠ "ble" →
      identityEffectiveSerial serialOne ≠ identityEffectiveSerial serialTwo →
      identity { s with serial := serialOne } ≠
        identity { s with serial := serialTwo } := by
  intro s serialOne serialTwo hble hne hid
  by_cases h1 : identityEffectiveSerial serialOne = ""
  · by_cases h2 : identityEffectiveSerial serialTwo = ""
    · exact hne (h1.trans h2.symm)
    · obtain ⟨c, hc, hcS⟩ :=
        identity_head_not_S { s with serial := serialOne } hble h1
      have hS : (identity { s with serial := serialTwo }).data.head? =
          some 'S' := by
        rw [identity_ser_eq { s with serial := serialTwo } hble h2]
        simp
      rw [hid, hS] at hc
      exact hcS (Option.some.inj hc).symm
  · by_cases h2 : identityEffectiveSerial serialTwo = ""
    · obtain ⟨c, hc, hcS⟩ :=
        identity_head_not_S { s with serial := serialTwo } hble h2
      have hS : (identity { s with serial := serialOne }).data.head? =
          some 'S' := by
        rw [identity_ser_eq { s with serial := serialOne } hble h1]
        simp
      rw [← hid, hS] at hc
      exact hcS (Option.some.inj hc).symm
    · have e1 := identity_ser_eq { s with serial := serialOne } hble h1
      have e2 := identity_ser_eq { s with serial := serialTwo } hble h2
      rw [e1, e2] at hid
      have htail : identityTailParts
          ({ s with serial := serialOne } : UsbDeviceSnapshot) =
          identityTailParts { s with serial := serialTwo } := rfl
      rw [htail] at hid
      have hdata := congrArg String.data hid
      simp only [String.data_append] at hdata
      have h5 := List.append_cancel_right hdata
      have h6 := List.append_cancel_left h5
      exact hne (String.ext h6)

/-- C3 witness: serials `A` and `B` on otherwise identical snapshots give
different identities. -/
theorem C3_identity_amended_witness :
    identity { ({ vid := "0x0403", pid := "0x6001" } : UsbDeviceSnapshot)
        with serial := "A" } ≠
      identity { ({ vid := "0x0403", pid := "0x6001" } : UsbDeviceSnapshot)
        with serial := "B" } :=
  C3_identity_amended { vid := "0x0403", pid := "0x6001" } "A" "B"
    (by decide) (by decide)

end USBUtil
